import Mathlib

/-!
Verification development for the Baikal scene-graph core
(src/Baikal/SceneGraph/shape.h and src/Baikal/SceneGraph/texture.cpp).

Machine floats of the C++ code are embedded as exact rationals; the
byte buffer of a Texture is a total function from byte index to byte
value, mirroring raw memory accessed through reinterpret_cast.
Definitions marked `Modelled from the spec:` embed code of this
repository whose translation unit is not available (shape.cpp,
texture.h, the RadeonRays math headers, Utils/half.h); they follow the
specification text that was written from that code.
-/

/-- Embedding of RadeonRays::float3 (the w component is unused by this core). -/
structure Float3 where
  x : ℚ
  y : ℚ
  z : ℚ
deriving DecidableEq, Repr

/-- Embedding of RadeonRays::float2. -/
structure Float2 where
  x : ℚ
  y : ℚ
deriving DecidableEq, Repr

/-- Componentwise minimum of two vectors, as used by bbox growth. -/
def Float3.vmin (a b : Float3) : Float3 :=
  ⟨min a.x b.x, min a.y b.y, min a.z b.z⟩

/-- Componentwise maximum of two vectors, as used by bbox growth. -/
def Float3.vmax (a b : Float3) : Float3 :=
  ⟨max a.x b.x, max a.y b.y, max a.z b.z⟩

/-- Componentwise sum, embedding float3 operator+=. -/
def Float3.add (a b : Float3) : Float3 :=
  ⟨a.x + b.x, a.y + b.y, a.z + b.z⟩

/-- Scalar multiple, embedding float3 operator*= by a scalar. -/
def Float3.scale (q : ℚ) (a : Float3) : Float3 :=
  ⟨q * a.x, q * a.y, q * a.z⟩

/-- The zero vector, embedding the default-constructed RadeonRays::float3(). -/
def fzero : Float3 := ⟨0, 0, 0⟩

/-- Embedding of RadeonRays::bbox: componentwise minimum and maximum corner. -/
structure Bbox where
  pmin : Float3
  pmax : Float3
deriving DecidableEq, Repr

/-- Growing a box to include one point: componentwise min into pmin, max into pmax. -/
def Bbox.grow (b : Bbox) (p : Float3) : Bbox :=
  ⟨b.pmin.vmin p, b.pmax.vmax p⟩

/-- A degenerate box holding exactly one point. -/
def Bbox.ofPoint (p : Float3) : Bbox := ⟨p, p⟩

/-- A point is contained in a box when it lies between the corners componentwise. -/
def Bbox.contains (b : Bbox) (p : Float3) : Prop :=
  b.pmin.x ≤ p.x ∧ p.x ≤ b.pmax.x ∧
  b.pmin.y ≤ p.y ∧ p.y ≤ b.pmax.y ∧
  b.pmin.z ≤ p.z ∧ p.z ≤ b.pmax.z

instance (b : Bbox) (p : Float3) : Decidable (b.contains p) := by
  unfold Bbox.contains
  infer_instance

/-- Modelled from the spec: zero vertices yield an implementation-defined
inverted box where min exceeds max (section 4.3 of the spec); in the C++
math library the default bbox uses infinities, which rationals lack, so a
fixed inverted box stands for it. -/
def emptyBbox : Bbox := ⟨⟨0, 0, 0⟩, ⟨-1, -1, -1⟩⟩

/-- Modelled from the spec: the AABB computation of Mesh::GetLocalAABB
(shape.cpp is not in src/): iterate every vertex, accumulating the
componentwise minimum and maximum envelope. -/
def computeAABB : List Float3 → Bbox
  | [] => emptyBbox
  | v :: vs => vs.foldl Bbox.grow (Bbox.ofPoint v)

/-- A proper (non-inverted) box: minimum corner at most maximum corner. -/
def properBox (b : Bbox) : Prop :=
  b.pmin.x ≤ b.pmax.x ∧ b.pmin.y ≤ b.pmax.y ∧ b.pmin.z ≤ b.pmax.z

instance (b : Bbox) : Decidable (properBox b) := by
  unfold properBox
  infer_instance

/-- Embedding of RadeonRays::matrix (row-major 4x4). -/
structure Matrix16 where
  m00 : ℚ
  m01 : ℚ
  m02 : ℚ
  m03 : ℚ
  m10 : ℚ
  m11 : ℚ
  m12 : ℚ
  m13 : ℚ
  m20 : ℚ
  m21 : ℚ
  m22 : ℚ
  m23 : ℚ
  m30 : ℚ
  m31 : ℚ
  m32 : ℚ
  m33 : ℚ
deriving DecidableEq, Repr

/-- Modelled from the spec: the matrix-point transform of the math library
(section 6 of the spec), applying the affine part of the matrix to a point
with implicit w = 1. -/
def transformPoint (M : Matrix16) (p : Float3) : Float3 :=
  ⟨M.m00 * p.x + M.m01 * p.y + M.m02 * p.z + M.m03,
   M.m10 * p.x + M.m11 * p.y + M.m12 * p.z + M.m13,
   M.m20 * p.x + M.m21 * p.y + M.m22 * p.z + M.m23⟩

/-- The identity matrix. -/
def idMatrix : Matrix16 := ⟨1, 0, 0, 0, 0, 1, 0, 0, 0, 0, 1, 0, 0, 0, 0, 1⟩

/-- The eight corners of a box. -/
def Bbox.corners (b : Bbox) : List Float3 :=
  [⟨b.pmin.x, b.pmin.y, b.pmin.z⟩, ⟨b.pmax.x, b.pmin.y, b.pmin.z⟩,
   ⟨b.pmin.x, b.pmax.y, b.pmin.z⟩, ⟨b.pmax.x, b.pmax.y, b.pmin.z⟩,
   ⟨b.pmin.x, b.pmin.y, b.pmax.z⟩, ⟨b.pmax.x, b.pmin.y, b.pmax.z⟩,
   ⟨b.pmin.x, b.pmax.y, b.pmax.z⟩, ⟨b.pmax.x, b.pmax.y, b.pmax.z⟩]

/-- Common state of the abstract Shape base class (shape.h lines 77-82) plus
the SceneObject dirty flag. Materials are referenced by identity only, so a
material pointer is a numeric identity or none for nullptr. -/
structure ShapeCommon where
  m_material : Option Nat
  m_transform : Matrix16
  m_shadow : Bool
  m_dirty : Bool
deriving DecidableEq, Repr

/-- Modelled from the spec: SceneObject::SetDirty simply stores the flag
(scene_object.h is not in src/; spec section 4.1). -/
def ShapeCommon.setDirtyBase (c : ShapeCommon) (d : Bool) : ShapeCommon :=
  { c with m_dirty := d }

/-- State of a Mesh (shape.h lines 135-142): geometry arrays plus the mutable
AABB cache fields. -/
structure Mesh where
  common : ShapeCommon
  m_vertices : List Float3
  m_normals : List Float3
  m_uvs : List Float2
  m_indices : List Nat
  m_aabb : Bbox
  m_aabb_cached : Bool
deriving DecidableEq, Repr

/-- Modelled from the spec: Mesh::SetDirty override (declared at shape.h
lines 127-129 with the comment that mesh changes trigger the m_aabb_cached
flag reset; body in the absent shape.cpp): store the flag via the base class
and clear the AABB cache validity flag. -/
def Mesh.SetDirty (m : Mesh) (d : Bool) : Mesh :=
  { m with common := m.common.setDirtyBase d, m_aabb_cached := false }

/-- Modelled from the spec: Mesh::SetVertices (shape.cpp absent; spec
section 4.3): replace the vertex array and mark dirty. The pointer-plus-count
and the moved-vector overloads both reduce to replacing the owned list. -/
def Mesh.SetVertices (m : Mesh) (vs : List Float3) : Mesh :=
  Mesh.SetDirty { m with m_vertices := vs } true

/-- Modelled from the spec: Mesh::SetNormals (shape.cpp absent; spec
section 4.3): replace the normal array and mark dirty. -/
def Mesh.SetNormals (m : Mesh) (ns : List Float3) : Mesh :=
  Mesh.SetDirty { m with m_normals := ns } true

/-- Modelled from the spec: Mesh::SetUVs (shape.cpp absent; spec
section 4.3): replace the uv array and mark dirty. -/
def Mesh.SetUVs (m : Mesh) (uvs : List Float2) : Mesh :=
  Mesh.SetDirty { m with m_uvs := uvs } true

/-- Modelled from the spec: Mesh::SetIndices (shape.cpp absent; spec
section 4.3): replace the index array and mark dirty. -/
def Mesh.SetIndices (m : Mesh) (is : List Nat) : Mesh :=
  Mesh.SetDirty { m with m_indices := is } true

/-- Modelled from the spec: Mesh::GetLocalAABB (shape.cpp absent; spec
section 4.3): if the cache is valid return the cached box unchanged,
otherwise compute the envelope of the vertices, store it, set the validity
flag and return it. The C++ method mutates the interior-mutable cache of a
const object; the embedding returns the updated state alongside the box. -/
def Mesh.GetLocalAABB (m : Mesh) : Bbox × Mesh :=
  if m.m_aabb_cached then (m.m_aabb, m)
  else
    (computeAABB m.m_vertices,
     { m with m_aabb := computeAABB m.m_vertices, m_aabb_cached := true })

/-- Cache coherence invariant of a Mesh: whenever the cache validity flag is
set, the cached box is the envelope of the current vertices. It holds after
construction (the flag starts false) and is preserved by every operation. -/
def MeshInv (m : Mesh) : Prop :=
  m.m_aabb_cached = true → m.m_aabb = computeAABB m.m_vertices

instance (m : Mesh) : Decidable (MeshInv m) := by
  unfold MeshInv
  infer_instance

/-- Modelled from the spec: freshly constructed Shape state (shape.h lines
149-153: null material, shadow on; the dirty flag of a new SceneObject is
modelled clear). -/
def initCommon : ShapeCommon := ⟨none, idMatrix, true, false⟩

/-- Modelled from the spec: a freshly constructed Mesh: empty geometry and
an invalid AABB cache (spec section 3: aabb_valid is false after
construction). -/
def mkMesh : Mesh := ⟨initCommon, [], [], [], [], emptyBbox, false⟩

/-- The closed set of concrete shapes of this core: a Mesh, or an Instance
holding a base-shape reference that is either non-null (mk_inst) or null
(mk_inst_null). An Instance copies the referenced base state into the node;
the pointer indirection of the C++ is flattened into the tree. -/
inductive Shape where
  | mk_mesh : Mesh → Shape
  | mk_inst : ShapeCommon → Shape → Shape
  | mk_inst_null : ShapeCommon → Shape
deriving DecidableEq, Repr

/-- The base-class state embedded in a shape. -/
def Shape.common : Shape → ShapeCommon
  | .mk_mesh m => m.common
  | .mk_inst c _ => c
  | .mk_inst_null c => c

/-- Replace the base-class state of a shape, keeping the rest. -/
def Shape.withCommon : Shape → ShapeCommon → Shape
  | .mk_mesh m, c => .mk_mesh { m with common := c }
  | .mk_inst _ b, c => .mk_inst c b
  | .mk_inst_null _, c => .mk_inst_null c

/-- Virtual SetDirty dispatch: the Mesh override also clears the AABB cache
flag, the plain base behaviour just stores the flag. -/
def Shape.SetDirty : Shape → Bool → Shape
  | .mk_mesh m, d => .mk_mesh (m.SetDirty d)
  | .mk_inst c b, d => .mk_inst (c.setDirtyBase d) b
  | .mk_inst_null c, d => .mk_inst_null (c.setDirtyBase d)

/-- The dirty flag of a shape. -/
def Shape.GetDirty (s : Shape) : Bool := s.common.m_dirty

/-- Shape::SetMaterial (shape.h lines 155-159): store the material reference,
then SetDirty(true) through the virtual dispatch. -/
def Shape.SetMaterial (s : Shape) (mat : Option Nat) : Shape :=
  Shape.SetDirty (s.withCommon { s.common with m_material := mat }) true

/-- Shape::SetTransform (shape.h lines 166-170): store the transform, then
SetDirty(true). -/
def Shape.SetTransform (s : Shape) (t : Matrix16) : Shape :=
  Shape.SetDirty (s.withCommon { s.common with m_transform := t }) true

/-- Shape::SetShadow (shape.h lines 177-181): store the shadow flag, then
SetDirty(true). -/
def Shape.SetShadow (s : Shape) (sh : Bool) : Shape :=
  Shape.SetDirty (s.withCommon { s.common with m_shadow := sh }) true

/-- Instance::SetBaseShape (shape.h lines 218-222): store the base shape
reference, then SetDirty(true). On a non-Instance shape the operation does
not exist; the embedding leaves such a shape unchanged. -/
def Shape.SetBaseShape (s : Shape) (base : Option Shape) : Shape :=
  match s with
  | .mk_inst c _ =>
    Shape.SetDirty (match base with
      | some b => Shape.mk_inst c b
      | none => Shape.mk_inst_null c) true
  | .mk_inst_null c =>
    Shape.SetDirty (match base with
      | some b => Shape.mk_inst c b
      | none => Shape.mk_inst_null c) true
  | .mk_mesh m => .mk_mesh m

/-- Polymorphic GetLocalAABB. The Mesh case is Mesh::GetLocalAABB; the
Instance case is modelled from the spec (shape.cpp absent; spec section
4.4): return the local AABB of the base shape verbatim, with no
per-instance cache; a null base shape is undefined behaviour in the C++ and
yields the empty box here. The updated state is returned alongside, since
the base mesh cache may fill in. -/
def Shape.GetLocalAABB : Shape → Bbox × Shape
  | .mk_mesh m => ((m.GetLocalAABB).1, .mk_mesh (m.GetLocalAABB).2)
  | .mk_inst c b => ((b.GetLocalAABB).1, .mk_inst c (b.GetLocalAABB).2)
  | .mk_inst_null c => (emptyBbox, .mk_inst_null c)

/-- Modelled from the spec: Shape::GetWorldAABB (declared at shape.h line
72, body in the absent shape.cpp; spec section 4.1): call GetLocalAABB,
apply the current transform to all eight corners of the local box, and
return the axis-aligned envelope of the transformed corners, recomputed on
every call. -/
def Shape.GetWorldAABB (s : Shape) : Bbox × Shape :=
  (computeAABB (((s.GetLocalAABB).1.corners).map (transformPoint s.common.m_transform)),
   (s.GetLocalAABB).2)

/-- Embedding of a Texture (texture.h is not in src/; spec section 3): a
format tag, a size in pixels, and an owned byte buffer. The format tag is
the underlying integer of the C++ enum (kRgba8 = 0, kRgba16 = 1,
kRgba32 = 2; other values are expressible, as in the C++). The buffer is a
total function from byte offset to stored byte, standing for the raw memory
viewed through reinterpret_cast. -/
structure Texture where
  m_format : Nat
  m_size : Nat × Nat
  m_data : Nat → Nat

/-- Number of pixels, as computed in every branch of
Texture::ComputeAverageValue (texture.cpp lines 15, 32, 55). -/
def numElements (t : Texture) : Nat := t.m_size.1 * t.m_size.2

/-- A byte read from the texture buffer (uint8_t access). -/
def byteAt (t : Texture) (k : Nat) : Nat := t.m_data k % 256

/-- A 16-bit word read from the texture buffer at word index k, as seen
through the uint16_t view of the buffer (little-endian memory). -/
def word16At (t : Texture) (k : Nat) : Nat :=
  byteAt t (2 * k) + 256 * byteAt t (2 * k + 1)

/-- A 32-bit word read from the texture buffer at word index k, as seen
through the 32-bit view of the buffer (little-endian memory). -/
def word32At (t : Texture) (k : Nat) : Nat :=
  byteAt t (4 * k) + 256 * byteAt t (4 * k + 1) +
  65536 * byteAt t (4 * k + 2) + 16777216 * byteAt t (4 * k + 3)

/-- Modelled from the spec: the half-to-float decode of Utils/half.h (not
in src/; spec section 4.5: IEEE-754 half-precision bit pattern to float).
Exponent 31 encodes infinities and NaNs, which rationals cannot hold; those
bit patterns map to 0 here and no claim depends on their value. -/
def halfBitsToRat (bits : Nat) : ℚ :=
  let b := bits % 65536
  let s := b / 32768
  let e := b / 1024 % 32
  let m := b % 1024
  let mag : ℚ :=
    if e = 31 then 0
    else (if e = 0 then (m : ℚ) * 2 else ((1024 + m : Nat) : ℚ) * 2 ^ e) / 2 ^ 25
  if s = 1 then -mag else mag

/-- Modelled from the spec: reading a 32-bit float stored in the buffer
(spec section 4.5: each channel is already a 32-bit float; the bit pattern
in memory is decoded by IEEE-754 single precision). Exponent 255 encodes
infinities and NaNs and maps to 0 here; no claim depends on that value. -/
def float32BitsToRat (bits : Nat) : ℚ :=
  let b := bits % 4294967296
  let s := b / 2147483648
  let e := b / 8388608 % 256
  let m := b % 8388608
  let mag : ℚ :=
    if e = 255 then 0
    else (if e = 0 then (m : ℚ) * 2 else ((8388608 + m : Nat) : ℚ) * 2 ^ e) / 2 ^ 150
  if s = 1 then -mag else mag

/-- One decoded pixel of the kRgba8 branch (texture.cpp lines 20-23): the
red, green and blue bytes of pixel i, each divided by 255; the alpha byte
at offset 4 * i + 3 is not read. -/
def texel8 (t : Texture) (i : Nat) : Float3 :=
  ⟨(byteAt t (4 * i) : ℚ) / 255,
   (byteAt t (4 * i + 1) : ℚ) / 255,
   (byteAt t (4 * i + 2) : ℚ) / 255⟩

/-- One decoded pixel of the kRgba16 branch (texture.cpp lines 36-46): the
red, green and blue 16-bit words of pixel i decoded as half floats; the
alpha word at index 4 * i + 3 is not read. -/
def texel16 (t : Texture) (i : Nat) : Float3 :=
  ⟨halfBitsToRat (word16At t (4 * i)),
   halfBitsToRat (word16At t (4 * i + 1)),
   halfBitsToRat (word16At t (4 * i + 2))⟩

/-- One decoded pixel of the kRgba32 branch (texture.cpp lines 59-63): the
red, green and blue 32-bit floats of pixel i; the alpha float at index
4 * i + 3 is not read. -/
def texel32 (t : Texture) (i : Nat) : Float3 :=
  ⟨float32BitsToRat (word32At t (4 * i)),
   float32BitsToRat (word32At t (4 * i + 1)),
   float32BitsToRat (word32At t (4 * i + 2))⟩

/-- The accumulation loop shared by all three branches: sum the decoded
pixels 0 .. n-1 into a running float3, starting from zero. -/
def rgbaSum (f : Nat → Float3) (n : Nat) : Float3 :=
  (List.range n).foldl (fun acc i => acc.add (f i)) fzero

/-- The per-pixel decode selected by the switch on the format tag. -/
def texelFor (t : Texture) : Nat → Float3 :=
  if t.m_format = 0 then texel8 t
  else if t.m_format = 1 then texel16 t
  else texel32 t

/-- Texture::ComputeAverageValue (texture.cpp lines 7-74): switch on the
format; for a recognized format accumulate the decoded red, green and blue
channels of every pixel and scale the sum by 1 / num_elements with no guard
against num_elements being zero; the default branch leaves the zero vector
untouched and returns it. In rational arithmetic 1 / 0 evaluates to 0 where
the float code would produce a non-finite value. -/
def ComputeAverageValue (t : Texture) : Float3 :=
  if t.m_format = 0 then
    Float3.scale (1 / (numElements t : ℚ)) (rgbaSum (texel8 t) (numElements t))
  else if t.m_format = 1 then
    Float3.scale (1 / (numElements t : ℚ)) (rgbaSum (texel16 t) (numElements t))
  else if t.m_format = 2 then
    Float3.scale (1 / (numElements t : ℚ)) (rgbaSum (texel32 t) (numElements t))
  else fzero

/-- Bytes per channel of each recognized format. -/
def bytesPerChannel (fmt : Nat) : Nat :=
  if fmt = 0 then 1 else if fmt = 1 then 2 else 4

/-- Two textures agree on the red, green and blue bytes of every pixel:
for each pixel index below the pixel count and each colour channel 0, 1, 2,
the bytes making up that channel coincide. The alpha bytes (channel 3) are
unconstrained. -/
def rgbAgree (t1 t2 : Texture) : Prop :=
  ∀ i < numElements t1, ∀ c < 3, ∀ j < bytesPerChannel t1.m_format,
    t1.m_data (4 * bytesPerChannel t1.m_format * i + bytesPerChannel t1.m_format * c + j) =
    t2.m_data (4 * bytesPerChannel t1.m_format * i + bytesPerChannel t1.m_format * c + j)

/-- Example mesh of the spec scenarios, reached through the public API:
a fresh Mesh whose vertices are set to the three scenario points. -/
def exampleMesh : Mesh :=
  Mesh.SetVertices mkMesh [⟨0, 0, 0⟩, ⟨1, 2, 3⟩, ⟨-1, 0, 5⟩]

/-- The scenario mesh after its AABB cache has been filled by a
GetLocalAABB call. -/
def cachedMesh : Mesh := (exampleMesh.GetLocalAABB).2

/-- A 2x2 all-red Rgba8 texture: every pixel stores bytes 255, 0, 0, 255. -/
def exTexRed : Texture :=
  ⟨0, (2, 2), fun k => if k % 4 = 0 ∨ k % 4 = 3 then 255 else 0⟩

/-- A texture with an out-of-range format tag. -/
def exTexBad : Texture := ⟨7, (2, 2), fun _ => 255⟩

instance (t1 t2 : Texture) : Decidable (rgbAgree t1 t2) := by
  unfold rgbAgree
  infer_instance

/-- A 1x1 Rgba8 texture with every byte 10. -/
def exTexA : Texture := ⟨0, (1, 1), fun _ => 10⟩

/-- The same texture with only the alpha byte changed to 200. -/
def exTexB : Texture := ⟨0, (1, 1), fun k => if k = 3 then 200 else 10⟩

/-- A zero-width Rgba32 texture: its pixel count is zero. -/
def exTexZero : Texture := ⟨2, (0, 5), fun _ => 0⟩

theorem contains_grow (b : Bbox) (p v : Float3) (h : b.contains v) :
    (b.grow p).contains v := by
  obtain ⟨h1, h2, h3, h4, h5, h6⟩ := h
  exact ⟨le_trans (min_le_left _ _) h1, le_trans h2 (le_max_left _ _),
         le_trans (min_le_left _ _) h3, le_trans h4 (le_max_left _ _),
         le_trans (min_le_left _ _) h5, le_trans h6 (le_max_left _ _)⟩

theorem contains_grow_self (b : Bbox) (p : Float3) : (b.grow p).contains p :=
  ⟨min_le_right _ _, le_max_right _ _, min_le_right _ _, le_max_right _ _,
   min_le_right _ _, le_max_right _ _⟩

theorem contains_ofPoint (v : Float3) : (Bbox.ofPoint v).contains v :=
  ⟨le_refl _, le_refl _, le_refl _, le_refl _, le_refl _, le_refl _⟩

theorem contains_foldl (vs : List Float3) (b : Bbox) (v : Float3) (h : b.contains v) :
    (vs.foldl Bbox.grow b).contains v := by
  induction vs generalizing b with
  | nil => exact h
  | cons w ws ih => exact ih _ (contains_grow _ _ _ h)

theorem mem_contains_foldl (vs : List Float3) (b : Bbox) (v : Float3) (h : v ∈ vs) :
    (vs.foldl Bbox.grow b).contains v := by
  induction vs generalizing b with
  | nil => cases h
  | cons w ws ih =>
    rcases List.mem_cons.mp h with rfl | hmem
    · exact contains_foldl ws _ v (contains_grow_self b v)
    · exact ih _ hmem

theorem computeAABB_contains (vs : List Float3) (v : Float3) (h : v ∈ vs) :
    (computeAABB vs).contains v := by
  cases vs with
  | nil => cases h
  | cons w ws =>
    rcases List.mem_cons.mp h with rfl | hmem
    · exact contains_foldl ws _ v (contains_ofPoint v)
    · exact mem_contains_foldl ws _ v hmem

theorem getLocalAABB_val (m : Mesh) (h : MeshInv m) :
    (m.GetLocalAABB).1 = computeAABB m.m_vertices := by
  unfold Mesh.GetLocalAABB
  by_cases hc : m.m_aabb_cached = true
  · simp [hc, h hc]
  · simp [hc]

theorem meshInv_mkMesh : MeshInv mkMesh := by
  intro h
  simp [mkMesh] at h

theorem meshInv_SetDirty (m : Mesh) (d : Bool) : MeshInv (m.SetDirty d) := by
  intro h
  simp [Mesh.SetDirty] at h

theorem meshInv_SetVertices (m : Mesh) (vs : List Float3) :
    MeshInv (m.SetVertices vs) :=
  meshInv_SetDirty _ _

theorem meshInv_SetNormals (m : Mesh) (ns : List Float3) :
    MeshInv (m.SetNormals ns) :=
  meshInv_SetDirty _ _

theorem meshInv_SetUVs (m : Mesh) (uvs : List Float2) :
    MeshInv (m.SetUVs uvs) :=
  meshInv_SetDirty _ _

theorem meshInv_SetIndices (m : Mesh) (is : List Nat) :
    MeshInv (m.SetIndices is) :=
  meshInv_SetDirty _ _

theorem meshInv_GetLocalAABB (m : Mesh) (h : MeshInv m) :
    MeshInv ((m.GetLocalAABB).2) := by
  by_cases hc : m.m_aabb_cached = true
  · simpa [Mesh.GetLocalAABB, hc] using h
  · intro hcache
    simp [Mesh.GetLocalAABB, hc]

/-- C1: on any Mesh whose AABB cache is coherent (as every mesh reached
through the public API is), GetLocalAABB returns the componentwise
minimum/maximum envelope of the current vertex array, hence contains every
vertex; and the scenario mesh with vertices (0,0,0), (1,2,3), (-1,0,5)
yields exactly the box with min (-1,0,0) and max (1,2,5). -/
theorem c1_local_aabb_envelope :
    (∀ m : Mesh, MeshInv m →
      (m.GetLocalAABB).1 = computeAABB m.m_vertices ∧
      ∀ v ∈ m.m_vertices, ((m.GetLocalAABB).1).contains v) ∧
    (exampleMesh.GetLocalAABB).1 = ⟨⟨-1, 0, 0⟩, ⟨1, 2, 5⟩⟩ := by
  constructor
  · intro m h
    refine ⟨getLocalAABB_val m h, ?_⟩
    intro v hv
    rw [getLocalAABB_val m h]
    exact computeAABB_contains _ _ hv
  · decide

/-- Witness for C1 at the scenario mesh: the cache-coherence hypothesis is
discharged by evaluation and containment of the vertex (1,2,3) follows. -/
theorem c1_local_aabb_envelope_witness :
    ((exampleMesh.GetLocalAABB).1).contains ⟨1, 2, 3⟩ :=
  (c1_local_aabb_envelope.1 exampleMesh (by decide)).2 ⟨1, 2, 3⟩ (by decide)

/-- C2: every setter of Shape, Instance and Mesh (SetMaterial, SetTransform,
SetShadow, SetBaseShape, and the Mesh geometry setters) leaves the dirty
flag of the mutated object set. -/
theorem c2_setters_mark_dirty :
    (∀ (s : Shape) (mat : Option Nat), (s.SetMaterial mat).GetDirty = true) ∧
    (∀ (s : Shape) (t : Matrix16), (s.SetTransform t).GetDirty = true) ∧
    (∀ (s : Shape) (sh : Bool), (s.SetShadow sh).GetDirty = true) ∧
    (∀ (c : ShapeCommon) (b : Shape) (base : Option Shape),
      ((Shape.mk_inst c b).SetBaseShape base).GetDirty = true ∧
      ((Shape.mk_inst_null c).SetBaseShape base).GetDirty = true) ∧
    (∀ (m : Mesh) (vs : List Float3), ((m.SetVertices vs).common).m_dirty = true) ∧
    (∀ (m : Mesh) (ns : List Float3), ((m.SetNormals ns).common).m_dirty = true) ∧
    (∀ (m : Mesh) (uvs : List Float2), ((m.SetUVs uvs).common).m_dirty = true) ∧
    (∀ (m : Mesh) (is : List Nat), ((m.SetIndices is).common).m_dirty = true) := by
  refine ⟨?_, ?_, ?_, ?_, ?_, ?_, ?_, ?_⟩
  · intro s mat; cases s <;> rfl
  · intro s t; cases s <;> rfl
  · intro s sh; cases s <;> rfl
  · intro c b base; cases base <;> exact ⟨rfl, rfl⟩
  · intro m vs; rfl
  · intro m ns; rfl
  · intro m uvs; rfl
  · intro m is; rfl

/-- Counterexample to C3 as stated: on a mesh with a valid AABB cache,
SetNormals clears the cache validity flag (because it calls SetDirty(true)
and the Mesh override of SetDirty resets m_aabb_cached), so the cache does
not stay valid. -/
theorem c3_counterexample :
    cachedMesh.m_aabb_cached = true ∧
    (cachedMesh.SetNormals [⟨0, 0, 1⟩]).m_aabb_cached = false := by
  decide

/-- C3 amended: SetNormals, SetUVs and SetIndices leave the stored box
bytes unchanged but clear the cache validity flag, exactly as any SetDirty
call does, so they too invalidate the cached AABB rather than leaving it
valid. -/
theorem c3_amended_setters_invalidate :
    ∀ (m : Mesh) (ns : List Float3) (uvs : List Float2) (is : List Nat) (d : Bool),
      ((m.SetNormals ns).m_aabb_cached = false ∧ (m.SetNormals ns).m_aabb = m.m_aabb) ∧
      ((m.SetUVs uvs).m_aabb_cached = false ∧ (m.SetUVs uvs).m_aabb = m.m_aabb) ∧
      ((m.SetIndices is).m_aabb_cached = false ∧ (m.SetIndices is).m_aabb = m.m_aabb) ∧
      (m.SetDirty d).m_aabb_cached = false := by
  intro m ns uvs is d
  exact ⟨⟨rfl, rfl⟩, ⟨rfl, rfl⟩, ⟨rfl, rfl⟩, rfl⟩

/-- C4: after a vertex-setting call the next GetLocalAABB returns the
envelope of the new vertex data, and a second GetLocalAABB without
mutation in between returns the same box and the same state with the
cache flag set, i.e. it is served from the cache. -/
theorem c4_cache_fresh_and_stable :
    (∀ (m : Mesh) (vs : List Float3),
      ((m.SetVertices vs).GetLocalAABB).1 = computeAABB vs) ∧
    (∀ m : Mesh,
      ((m.GetLocalAABB).2).GetLocalAABB = ((m.GetLocalAABB).1, (m.GetLocalAABB).2) ∧
      ((m.GetLocalAABB).2).m_aabb_cached = true) := by
  constructor
  · intro m vs
    simp [Mesh.SetVertices, Mesh.SetDirty, ShapeCommon.setDirtyBase, Mesh.GetLocalAABB]
  · intro m
    by_cases hc : m.m_aabb_cached = true <;>
      simp [Mesh.GetLocalAABB, hc]

/-- C5: the local AABB of an Instance with a non-null base is exactly the
local AABB of the base shape, the instance adds no cache of its own (its
own state component is untouched, only the base cache may fill in); and
the identity-transform instance over the scenario mesh returns the same
box as the mesh itself. -/
theorem c5_instance_delegates :
    (∀ (c : ShapeCommon) (base : Shape),
      (Shape.mk_inst c base).GetLocalAABB =
        ((base.GetLocalAABB).1, Shape.mk_inst c (base.GetLocalAABB).2)) ∧
    ((Shape.mk_inst initCommon (Shape.mk_mesh exampleMesh)).GetLocalAABB).1 =
      ((Shape.mk_mesh exampleMesh).GetLocalAABB).1 := by
  exact ⟨fun c base => rfl, by decide⟩

theorem transformPoint_id (p : Float3) : transformPoint idMatrix p = p := by
  cases p
  simp [transformPoint, idMatrix]

theorem corners_map_id (b : Bbox) :
    b.corners.map (transformPoint idMatrix) = b.corners := by
  simp [Bbox.corners, transformPoint_id]

theorem computeAABB_corners (b : Bbox) (h : properBox b) : computeAABB b.corners = b := by
  obtain ⟨hx, hy, hz⟩ := h
  cases b with
  | mk pmin pmax =>
    cases pmin with
    | mk a1 a2 a3 =>
      cases pmax with
      | mk b1 b2 b3 =>
        simp only [properBox] at hx hy hz
        simp [Bbox.corners, computeAABB, Bbox.ofPoint, Bbox.grow,
              Float3.vmin, Float3.vmax, List.foldl,
              min_eq_left hx, min_eq_right hx, max_eq_left hx, max_eq_right hx,
              min_eq_left hy, min_eq_right hy, max_eq_left hy, max_eq_right hy,
              min_eq_left hz, min_eq_right hz, max_eq_left hz, max_eq_right hz,
              min_self, max_self]

/-- C6: on any shape whose transform is the identity matrix and whose local
AABB is a proper (non-inverted) box, GetWorldAABB returns the same box as
GetLocalAABB: transforming the eight corners by the identity and taking
their envelope is the identity on proper axis-aligned boxes. -/
theorem c6_world_eq_local_under_identity (s : Shape)
    (h1 : s.common.m_transform = idMatrix)
    (h2 : properBox (s.GetLocalAABB).1) :
    (s.GetWorldAABB).1 = (s.GetLocalAABB).1 := by
  unfold Shape.GetWorldAABB
  rw [h1, corners_map_id, computeAABB_corners _ h2]

/-- Witness for C6 at the scenario mesh, whose transform is the identity
and whose local box is proper. -/
theorem c6_world_eq_local_witness :
    ((Shape.mk_mesh exampleMesh).GetWorldAABB).1 =
      ((Shape.mk_mesh exampleMesh).GetLocalAABB).1 :=
  c6_world_eq_local_under_identity (Shape.mk_mesh exampleMesh) (by decide) (by decide)

/-- C7: a 2x2 Rgba8 texture whose four pixels are all (255,0,0,255)
averages to (1,0,0): each byte channel is decoded as value divided by 255
before accumulation. -/
theorem c7_rgba8_uniform_red (t : Texture)
    (hf : t.m_format = 0) (hs : t.m_size = (2, 2))
    (hd : ∀ i < 4, byteAt t (4 * i) = 255 ∧ byteAt t (4 * i + 1) = 0 ∧
          byteAt t (4 * i + 2) = 0 ∧ byteAt t (4 * i + 3) = 255) :
    ComputeAverageValue t = ⟨1, 0, 0⟩ := by
  have h0 := hd 0 (by norm_num)
  have h1 := hd 1 (by norm_num)
  have h2 := hd 2 (by norm_num)
  have h3 := hd 3 (by norm_num)
  norm_num at h0 h1 h2 h3
  have hn : numElements t = 4 := by simp [numElements, hs]
  have hr : List.range 4 = [0, 1, 2, 3] := rfl
  simp [ComputeAverageValue, hf, hn, rgbaSum, hr, texel8, fzero, Float3.add,
        Float3.scale, h0.1, h0.2.1, h0.2.2.1, h1.1, h1.2.1, h1.2.2.1,
        h2.1, h2.2.1, h2.2.2.1, h3.1, h3.2.1, h3.2.2.1]
  norm_num

/-- Witness for C7 at the concrete all-red texture. -/
theorem c7_rgba8_uniform_red_witness : ComputeAverageValue exTexRed = ⟨1, 0, 0⟩ :=
  c7_rgba8_uniform_red exTexRed rfl rfl (by decide)

/-- C8: a texture whose format tag is none of the three recognized values
averages to the zero vector, and the result does not depend on the pixel
buffer at all (the default branch reads no data and signals nothing). -/
theorem c8_unknown_format_zero (t : Texture)
    (h : t.m_format ≠ 0 ∧ t.m_format ≠ 1 ∧ t.m_format ≠ 2) :
    ComputeAverageValue t = fzero ∧
    ∀ d : Nat → Nat, ComputeAverageValue ⟨t.m_format, t.m_size, d⟩ = fzero := by
  obtain ⟨h0, h1, h2⟩ := h
  constructor
  · simp [ComputeAverageValue, h0, h1, h2]
  · intro d
    simp [ComputeAverageValue, h0, h1, h2]

/-- Witness for C8 at the concrete tag-7 texture. -/
theorem c8_unknown_format_zero_witness : ComputeAverageValue exTexBad = fzero :=
  (c8_unknown_format_zero exTexBad (by decide)).1

theorem rgbaSum_congr (f g : Nat → Float3) (n : Nat) (h : ∀ i < n, f i = g i) :
    rgbaSum f n = rgbaSum g n := by
  have key : ∀ (l : List Nat) (acc : Float3), (∀ i ∈ l, f i = g i) →
      l.foldl (fun acc i => acc.add (f i)) acc =
      l.foldl (fun acc i => acc.add (g i)) acc := by
    intro l
    induction l with
    | nil => intro acc _; rfl
    | cons a as ih =>
      intro acc hm
      rw [List.foldl_cons, List.foldl_cons, hm a (List.mem_cons_self a as)]
      exact ih (acc.add (g a)) (fun i hi => hm i (List.mem_cons_of_mem a hi))
  exact key (List.range n) fzero (fun i hi => h i (List.mem_range.mp hi))

theorem data_agree_at (t1 t2 : Texture) (hag : rgbAgree t1 t2)
    (i : Nat) (hi : i < numElements t1) (k c j : Nat) (hc : c < 3)
    (hj : j < bytesPerChannel t1.m_format)
    (hk : k = 4 * bytesPerChannel t1.m_format * i + bytesPerChannel t1.m_format * c + j) :
    t1.m_data k = t2.m_data k := by
  subst hk
  exact hag i hi c hc j hj

theorem texel8_agree (t1 t2 : Texture) (hf : t1.m_format = 0)
    (hag : rgbAgree t1 t2) (i : Nat) (hi : i < numElements t1) :
    texel8 t1 i = texel8 t2 i := by
  have k0 : t1.m_data (4 * i) = t2.m_data (4 * i) :=
    data_agree_at t1 t2 hag i hi (4 * i) 0 0 (by norm_num)
      (by rw [hf]; norm_num [bytesPerChannel])
      (by rw [hf]; norm_num [bytesPerChannel])
  have k1 : t1.m_data (4 * i + 1) = t2.m_data (4 * i + 1) :=
    data_agree_at t1 t2 hag i hi (4 * i + 1) 1 0 (by norm_num)
      (by rw [hf]; norm_num [bytesPerChannel])
      (by rw [hf]; norm_num [bytesPerChannel])
  have k2 : t1.m_data (4 * i + 2) = t2.m_data (4 * i + 2) :=
    data_agree_at t1 t2 hag i hi (4 * i + 2) 2 0 (by norm_num)
      (by rw [hf]; norm_num [bytesPerChannel])
      (by rw [hf]; norm_num [bytesPerChannel])
  simp [texel8, byteAt, k0, k1, k2]

theorem texel16_agree (t1 t2 : Texture) (hf : t1.m_format = 1)
    (hag : rgbAgree t1 t2) (i : Nat) (hi : i < numElements t1) :
    texel16 t1 i = texel16 t2 i := by
  have a0 : t1.m_data (2 * (4 * i)) = t2.m_data (2 * (4 * i)) :=
    data_agree_at t1 t2 hag i hi _ 0 0 (by norm_num)
      (by rw [hf]; norm_num [bytesPerChannel])
      (by rw [hf]; norm_num [bytesPerChannel]; ring)
  have a1 : t1.m_data (2 * (4 * i) + 1) = t2.m_data (2 * (4 * i) + 1) :=
    data_agree_at t1 t2 hag i hi _ 0 1 (by norm_num)
      (by rw [hf]; norm_num [bytesPerChannel])
      (by rw [hf]; norm_num [bytesPerChannel]; ring)
  have b0 : t1.m_data (2 * (4 * i + 1)) = t2.m_data (2 * (4 * i + 1)) :=
    data_agree_at t1 t2 hag i hi _ 1 0 (by norm_num)
      (by rw [hf]; norm_num [bytesPerChannel])
      (by rw [hf]; norm_num [bytesPerChannel]; ring)
  have b1 : t1.m_data (2 * (4 * i + 1) + 1) = t2.m_data (2 * (4 * i + 1) + 1) :=
    data_agree_at t1 t2 hag i hi _ 1 1 (by norm_num)
      (by rw [hf]; norm_num [bytesPerChannel])
      (by rw [hf]; norm_num [bytesPerChannel]; ring)
  have d0 : t1.m_data (2 * (4 * i + 2)) = t2.m_data (2 * (4 * i + 2)) :=
    data_agree_at t1 t2 hag i hi _ 2 0 (by norm_num)
      (by rw [hf]; norm_num [bytesPerChannel])
      (by rw [hf]; norm_num [bytesPerChannel]; ring)
  have d1 : t1.m_data (2 * (4 * i + 2) + 1) = t2.m_data (2 * (4 * i + 2) + 1) :=
    data_agree_at t1 t2 hag i hi _ 2 1 (by norm_num)
      (by rw [hf]; norm_num [bytesPerChannel])
      (by rw [hf]; norm_num [bytesPerChannel]; ring)
  simp [texel16, word16At, byteAt, a0, a1, b0, b1, d0, d1]

theorem texel32_agree (t1 t2 : Texture) (hf : t1.m_format = 2)
    (hag : rgbAgree t1 t2) (i : Nat) (hi : i < numElements t1) :
    texel32 t1 i = texel32 t2 i := by
  have key : ∀ c < 3, ∀ j < 4,
      t1.m_data (4 * (4 * i + c) + j) = t2.m_data (4 * (4 * i + c) + j) := by
    intro c hc j hj
    exact data_agree_at t1 t2 hag i hi _ c j hc
      (by rw [hf]; norm_num [bytesPerChannel]; omega)
      (by rw [hf]; norm_num [bytesPerChannel]; ring)
  have a0 := key 0 (by norm_num) 0 (by norm_num)
  have a1 := key 0 (by norm_num) 1 (by norm_num)
  have a2 := key 0 (by norm_num) 2 (by norm_num)
  have a3 := key 0 (by norm_num) 3 (by norm_num)
  have b0 := key 1 (by norm_num) 0 (by norm_num)
  have b1 := key 1 (by norm_num) 1 (by norm_num)
  have b2 := key 1 (by norm_num) 2 (by norm_num)
  have b3 := key 1 (by norm_num) 3 (by norm_num)
  have d0 := key 2 (by norm_num) 0 (by norm_num)
  have d1 := key 2 (by norm_num) 1 (by norm_num)
  have d2 := key 2 (by norm_num) 2 (by norm_num)
  have d3 := key 2 (by norm_num) 3 (by norm_num)
  simp only [Nat.add_zero] at a0 a1 a2 a3 b0 d0
  simp [texel32, word32At, byteAt, a0, a1, a2, a3, b0, b1, b2, b3, d0, d1, d2, d3]

/-- C9: for textures of the same recognized format and size that agree on
the red, green and blue bytes of every pixel, the average is independent of
the alpha bytes: both averages coincide. -/
theorem c9_alpha_independent (t1 t2 : Texture)
    (hf : t1.m_format = t2.m_format) (hrec : t1.m_format < 3)
    (hs : t1.m_size = t2.m_size) (hag : rgbAgree t1 t2) :
    ComputeAverageValue t1 = ComputeAverageValue t2 := by
  have hn : numElements t1 = numElements t2 := by simp [numElements, hs]
  have h3 : t1.m_format = 0 ∨ t1.m_format = 1 ∨ t1.m_format = 2 := by omega
  rcases h3 with h | h | h
  · have hf2 : t2.m_format = 0 := by rw [← hf]; exact h
    have hsum : rgbaSum (texel8 t1) (numElements t1) = rgbaSum (texel8 t2) (numElements t1) :=
      rgbaSum_congr _ _ _ (fun i hi => texel8_agree t1 t2 h hag i hi)
    simp only [ComputeAverageValue, h, hf2, if_true, if_pos rfl]
    rw [hsum, hn]
  · have hf2 : t2.m_format = 1 := by rw [← hf]; exact h
    have hsum : rgbaSum (texel16 t1) (numElements t1) = rgbaSum (texel16 t2) (numElements t1) :=
      rgbaSum_congr _ _ _ (fun i hi => texel16_agree t1 t2 h hag i hi)
    simp only [ComputeAverageValue, h, hf2]
    norm_num
    rw [hsum, hn]
  · have hf2 : t2.m_format = 2 := by rw [← hf]; exact h
    have hsum : rgbaSum (texel32 t1) (numElements t1) = rgbaSum (texel32 t2) (numElements t1) :=
      rgbaSum_congr _ _ _ (fun i hi => texel32_agree t1 t2 h hag i hi)
    simp only [ComputeAverageValue, h, hf2]
    norm_num
    rw [hsum, hn]

/-- Witness for C9: two concrete textures differing only in an alpha byte
average to the same value. -/
theorem c9_alpha_independent_witness :
    ComputeAverageValue exTexA = ComputeAverageValue exTexB :=
  c9_alpha_independent exTexA exTexB rfl (by decide) rfl (by decide)

/-- C10: for every recognized-format texture the average is the channel sum
scaled by the reciprocal of num_elements with no zero guard, and that
divisor is nonzero exactly when width times height is positive, so a
zero-sized texture reaches the division with divisor zero. -/
theorem c10_unguarded_scale (t : Texture) (hrec : t.m_format < 3) :
    ComputeAverageValue t =
      Float3.scale (1 / (numElements t : ℚ)) (rgbaSum (texelFor t) (numElements t)) ∧
    (numElements t ≠ 0 ↔ 0 < t.m_size.1 * t.m_size.2) := by
  constructor
  · have h3 : t.m_format = 0 ∨ t.m_format = 1 ∨ t.m_format = 2 := by omega
    rcases h3 with h | h | h <;> simp [ComputeAverageValue, texelFor, h]
  · unfold numElements
    omega

/-- Witness for C10 at the concrete zero-sized texture. -/
theorem c10_unguarded_scale_witness :
    ComputeAverageValue exTexZero =
      Float3.scale (1 / (numElements exTexZero : ℚ))
        (rgbaSum (texelFor exTexZero) (numElements exTexZero)) ∧
    (numElements exTexZero ≠ 0 ↔ 0 < exTexZero.m_size.1 * exTexZero.m_size.2) :=
  c10_unguarded_scale exTexZero (by decide)
